import Mathlib

/-!
Shallow embedding of the tool functions of `tools.py` (repository
`friday`).  Each Python tool is an `async def` whose only effects are
calls to external collaborators (HTTP APIs, SMTP, desktop automation)
plus logging.  We model each tool as a pure Lean function over an
explicit environment value that records how the external collaborator
behaves on that run (its HTTP status and body, or the exception it
raises), and we record the tool's outward effects (SMTP envelope,
browser URL opened, number handed to the automation library) in an
outcome structure.  A Python exception escaping a tool is modelled by
`Except.error`; tools whose every path returns a string are modelled
with plain `String` results.
-/

namespace Friday

/-- Characters treated as whitespace by Python `str.strip()` (ASCII
fragment; the tools only ever strip phone numbers and numeric tokens). -/
def isPySpace (c : Char) : Bool :=
  c = ' ' || c = '\t' || c = '\n' || c = '\r' || c = '\x0b' || c = '\x0c'

/-- Models Python `s.strip()`: drop leading and trailing whitespace. -/
def pyStrip (s : String) : String :=
  String.mk (((s.data.dropWhile isPySpace).reverse.dropWhile isPySpace).reverse)

/-- Models Python `s.startswith(pre)`. -/
def pyStartswith (s pre : String) : Bool :=
  pre.data.isPrefixOf s.data

/-- Helper for `pySplit`: split a character list at every occurrence of
the separator, keeping empty pieces, exactly as Python `str.split(sep)`
does for a one-character separator. -/
def splitOnCharAux (sep : Char) : List Char → List Char → List (List Char)
  | [], acc => [acc.reverse]
  | c :: cs, acc =>
    if c = sep then acc.reverse :: splitOnCharAux sep cs []
    else splitOnCharAux sep cs (c :: acc)

/-- Models Python `s.split(sep)` for a one-character separator
(`numbers.split(',')` in `calculate_sum`). -/
def pySplit (sep : Char) (s : String) : List String :=
  (splitOnCharAux sep s.data []).map String.mk

/-- Models Python `sep.join(parts)`. -/
def pyJoin (sep : String) : List String → String
  | [] => ""
  | [x] => x
  | x :: y :: xs => x ++ sep ++ pyJoin sep (y :: xs)

/-- Numeric value of a list of decimal digit characters. -/
def digitsToNat (cs : List Char) : ℕ :=
  cs.foldl (fun acc c => acc * 10 + (c.toNat - 48)) 0

/-- Every character of the list is a decimal digit. -/
def allDigits (cs : List Char) : Bool :=
  cs.all (fun c => c.isDigit)

/-- Exact fraction `num / den` with no normalisation, used to model the
real value of a Python float.  The tools only ever sum plain decimal
literals, on which binary floating point is modelled exactly by rational
arithmetic for the spec's test vectors. -/
structure PyNum where
  num : Int
  den : ℕ
deriving DecidableEq, Repr

/-- Exact addition of two `PyNum` fractions (cross multiplication). -/
def PyNum.add (a b : PyNum) : PyNum :=
  ⟨a.num * (b.den : Int) + b.num * (a.den : Int), a.den * b.den⟩

/-- Models Python `sum(list)` over float values: a left fold of addition
starting from zero. -/
def pySum (l : List PyNum) : PyNum :=
  l.foldl PyNum.add ⟨0, 1⟩

/-- Models Python `float(s)` restricted to plain decimal literals:
optional surrounding whitespace, an optional sign, then digits with an
optional decimal point (`"1"`, `"3.5"`, `"-2."`, `".5"`).  Exponents,
underscores, `inf` and `nan` are outside the model; every other string
is rejected with `none`, exactly as `float` raises `ValueError`. -/
def pyFloat (s : String) : Option PyNum :=
  let cs := (pyStrip s).data
  let signed : Int × List Char :=
    match cs with
    | '+' :: rest => (1, rest)
    | '-' :: rest => (-1, rest)
    | _ => (1, cs)
  let sign := signed.1
  let body := signed.2
  let intPart := body.takeWhile (fun c => c ≠ '.')
  let rest := body.dropWhile (fun c => c ≠ '.')
  match rest with
  | [] =>
    if !intPart.isEmpty && allDigits intPart then
      some ⟨sign * (digitsToNat intPart : Int), 1⟩
    else none
  | '.' :: frac =>
    if (!intPart.isEmpty || !frac.isEmpty) && allDigits intPart && allDigits frac then
      some ⟨sign * ((digitsToNat intPart * 10 ^ frac.length + digitsToNat frac : ℕ) : Int),
            10 ^ frac.length⟩
    else none
  | _ => none

/-- Decimal digits of the fractional part `num / den` produced by long
division, stopping when the remainder vanishes (fuel-bounded). -/
def decDigits : ℕ → ℕ → ℕ → List ℕ
  | _, _, 0 => []
  | num, den, fuel + 1 =>
    if num = 0 then []
    else (num * 10 / den) :: decDigits (num * 10 % den) den fuel

/-- Character for a decimal digit. -/
def digitChar (d : ℕ) : Char := Char.ofNat (48 + d)

/-- Models Python `str()` on a float whose value has a finite decimal
expansion (the only case the tools produce): sign, integer part, a dot,
then the fractional digits, with a single `0` after the dot when the
value is integral (Python prints `6.0`, `6.5`). -/
def formatPyFloat (p : PyNum) : String :=
  let sign := if p.num < 0 then "-" else ""
  let n := p.num.natAbs
  let ip := n / p.den
  let frac := decDigits (n % p.den) p.den 64
  let fracStr := if frac.isEmpty then "0" else String.mk (frac.map digitChar)
  sign ++ toString ip ++ "." ++ fracStr

/-! ## The tool models, one per function of `tools.py` -/

/-- Behaviour of the external weather HTTP request in `get_weather`:
either a response with a status and a body, or an exception (network
failure etc.) carrying its message. -/
inductive WeatherEnv where
  | ok (status : ℕ) (body : String)
  | exn (msg : String)

/-- Model of `get_weather` (tools.py lines 23-42): on a 200 response the
stripped body is returned; on any other status a fixed could-not-retrieve
message; any exception is caught and turned into a fixed error message
that does not mention the exception. -/
def get_weather (env : WeatherEnv) (city : String) : String :=
  match env with
  | .ok status body =>
    if status = 200 then pyStrip body
    else "Could not retrieve weather for " ++ city ++ "."
  | .exn _ => "An error occurred while retrieving weather for " ++ city ++ "."

/-- Behaviour of the DuckDuckGo search call in `search_web`. -/
inductive SearchEnv where
  | ok (results : String)
  | exn (msg : String)

/-- Model of `search_web` (tools.py lines 45-60). -/
def search_web (env : SearchEnv) (query : String) : String :=
  match env with
  | .ok results => results
  | .exn _ => "An error occurred while searching for '" ++ query ++ "'."

/-- Behaviour of the joke API call in `fetch_joke`: a response status
with the parsed JSON fields, or an exception (which also covers a 200
body that fails to parse or lacks the keys). -/
inductive JokeEnv where
  | ok (status : ℕ) (setup punchline : String)
  | exn (msg : String)

/-- Model of `fetch_joke` (tools.py lines 63-81). -/
def fetch_joke (env : JokeEnv) : String :=
  match env with
  | .ok status setup punchline =>
    if status = 200 then setup ++ " - " ++ punchline
    else "Could not retrieve a joke at this time."
  | .exn _ => "An error occurred while fetching a joke."

/-- Environment of `send_email`: the two credentials as the process
environment supplies them (`none` when the variable is unset, `some ""`
when set but empty), and the exception raised by the SMTP session, if
any (`none` when connect, starttls, login, sendmail and quit all
succeed). -/
structure EmailEnv where
  gmailSender : Option String
  gmailAppPassword : Option String
  smtpExn : Option String

/-- Python truthiness of an optional environment string: `None` and the
empty string are falsy. -/
def pyTruthy : Option String → Bool
  | none => false
  | some s => !s.data.isEmpty

/-- Outcome of one `send_email` call: the returned text, whether the SMTP
connection was attempted at all, the `Cc` header of the composed message
(`none` when absent), and the envelope recipient list handed to
`sendmail` (`none` when `sendmail` was never executed). -/
structure EmailOutcome where
  text : String
  smtpAttempted : Bool
  ccHeader : Option String
  sentTo : Option (List String)
deriving DecidableEq, Repr

/-- Model of `send_email` (tools.py lines 84-127): missing or empty
credentials short-circuit to a configuration-error string before any
SMTP work; otherwise the message is composed (adding `Cc` only when
`cc_email` is truthy), `sendmail` is invoked with the bare `to_email`
as its recipient argument (smtplib wraps a single string into a
one-element list), and an SMTP exception is caught and reported with
its message interpolated into the returned text. -/
def send_email (env : EmailEnv) (to_email subject message cc_email : String) : EmailOutcome :=
  if !pyTruthy env.gmailSender || !pyTruthy env.gmailAppPassword then
    { text := "Error: Gmail credentials not configured."
      smtpAttempted := false
      ccHeader := none
      sentTo := none }
  else
    let ccHdr := if cc_email.data.isEmpty then none else some cc_email
    match env.smtpExn with
    | some e =>
      { text := "Failed to send email: " ++ e
        smtpAttempted := true
        ccHeader := ccHdr
        sentTo := none }
    | none =>
      { text := "Email sent to " ++ to_email ++ "!"
        smtpAttempted := true
        ccHeader := ccHdr
        sentTo := some [to_email] }

/-- Model of `get_current_time` (tools.py lines 131-134), abstracted over
the clock reading already formatted. -/
def get_current_time (now : String) : String := now

/-- Model of `echo_message` (tools.py lines 141-144). -/
def echo_message (message : String) : String := message

/-- Model of `calculate_sum` (tools.py lines 146-153): split the input on
commas, strip each token and convert it with `float`; the first token
that fails to convert raises `ValueError` with the Python message
naming that token, which the handler interpolates into the returned
text; otherwise the float sum is formatted into the success text. -/
def calculate_sum (numbers : String) : String :=
  let parts := (pySplit ',' numbers).map pyStrip
  match parts.find? (fun p => (pyFloat p).isNone) with
  | some bad => "Error calculating sum: could not convert string to float: '" ++ bad ++ "'"
  | none => "The sum is " ++ formatPyFloat (pySum (parts.filterMap pyFloat)) ++ "."

/-- Behaviour of the news lookup run by `read_news`: the result list the
DDGS news call produced, or the exception it raised. -/
inductive NewsEnv where
  | ok (results : List (List (String × String)))
  | exn (msg : String)

/-- One news result is a Python dict; we model it as an association list
from key to string value, looked up with `dict.get` semantics. -/
def dictGet (item : List (String × String)) (key fallback : String) : String :=
  match item.find? (fun kv => kv.1 = key) with
  | some kv => kv.2
  | none => fallback

/-- Formatting of a single news item (tools.py lines 199-207): title,
source, date and a summary taken from `body`, falling back to `snippet`
and then to a fixed default. -/
def formatNewsItem (item : List (String × String)) : String :=
  let title := dictGet item "title" "Untitled"
  let source := dictGet item "source" "Unknown Source"
  let summary := dictGet item "body" (dictGet item "snippet" "No details available.")
  let date := dictGet item "date" ""
  "- " ++ title ++ " (" ++ source ++ ", " ++ date ++ ")\n  Summary: " ++ summary ++ "\n"

/-- Model of `read_news` (tools.py lines 176-214): an empty result list
yields the fixed no-stories message; otherwise a header line followed by
one formatted entry per result, joined with newlines; an exception from
the lookup is caught and reported with a fixed message. -/
def read_news (env : NewsEnv) (topic : String) : String :=
  match env with
  | .exn _ => "I encountered an error while searching for news on " ++ topic ++ "."
  | .ok results =>
    if results.isEmpty then
      "I couldn't find any recent news stories regarding '" ++ topic ++ "'."
    else
      pyJoin "\n" (("Here is the latest news on " ++ topic ++ ":") :: results.map formatNewsItem)

/-- Behaviour of the pywhatkit strategy in `play_video`: `ok` when both
the import and `playonyt` succeed, `exn` when either raises (both sit
inside the try block there). -/
inductive PlayVideoEnv where
  | ok
  | exn (msg : String)

/-- Outcome of one `play_video` call: the returned text and the URL
opened in the default browser by the fallback, if any. -/
structure PlayVideoOutcome where
  text : String
  openedUrl : Option String
deriving DecidableEq, Repr

/-- Model of `play_video` (tools.py lines 219-241): first strategy is the
pywhatkit automation; on any exception from it the fallback opens the
YouTube search-results URL in the browser and returns its own distinct
text, and the exception is not re-raised. -/
def play_video (env : PlayVideoEnv) (topic : String) : PlayVideoOutcome :=
  match env with
  | .ok =>
    { text := "I've started playing " ++ topic ++ " on YouTube."
      openedUrl := none }
  | .exn _ =>
    { text := "I couldn't autoplay the specific video, but I've opened YouTube search results for "
        ++ topic ++ "."
      openedUrl := some ("https://www.youtube.com/results?search_query=" ++ topic) }

/-- Environment of `send_whatsapp`: whether the `import pywhatkit`
statement raises (it sits before and outside the try block), and whether
`sendwhatmsg_instantly` raises inside the try block. -/
structure WhatsAppEnv where
  importExn : Option String
  sendExn : Option String

/-- Outcome of one `send_whatsapp` call: `result` is `Except.error` when
an exception escapes the function, `Except.ok` with the returned text
otherwise; `phoneUsed` is the number handed to the automation library
(`none` when execution never reached it). -/
structure WhatsAppOutcome where
  result : Except String String
  phoneUsed : Option String
deriving Repr

/-- Model of `send_whatsapp` (tools.py lines 244-274): the module import
runs first and outside the try block, so an exception there escapes the
tool; then the destination number is defaulted to the `+91` country code
(prepended to the stripped input) unless it already starts with `+`; an
exception from the send call itself is caught and turned into a fixed
text that does not mention the exception. -/
def send_whatsapp (env : WhatsAppEnv) (phone_number message : String) : WhatsAppOutcome :=
  match env.importExn with
  | some e => { result := .error e, phoneUsed := none }
  | none =>
    let phone :=
      if pyStartswith phone_number "+" then phone_number
      else "+91" ++ pyStrip phone_number
    match env.sendExn with
    | some _ =>
      { result := .ok "I tried to send the WhatsApp message, but it failed. Is WhatsApp Web logged in?"
        phoneUsed := some phone }
    | none =>
      { result := .ok ("I have opened WhatsApp and typed the message to " ++ phone
          ++ ". Please check if it sent.")
        phoneUsed := some phone }

/-! ## Claims -/

/-- C9: `echo_message` is the identity on its message argument. -/
theorem echo_message_identity : ∀ message : String, echo_message message = message :=
  fun _ => rfl

/-- C3: `calculate_sum` on the input `"1, 2, 3.5"` returns a text
containing `6.5`, and on the input `"a,b"` it returns the failure-shaped
message produced by the caught `ValueError`, not an exception. -/
theorem calculate_sum_spec_vectors :
    (∃ pre post, calculate_sum "1, 2, 3.5" = pre ++ "6.5" ++ post) ∧
    calculate_sum "a,b" = "Error calculating sum: could not convert string to float: 'a'" := by
  refine ⟨⟨"The sum is ", ".", by decide⟩, by decide⟩

/-- C4: with either Gmail credential unset or empty, `send_email`
returns the configuration-error text and never attempts the SMTP
connection. -/
theorem send_email_missing_credentials (env : EmailEnv) (to_email subject body cc : String)
    (h : pyTruthy env.gmailSender = false ∨ pyTruthy env.gmailAppPassword = false) :
    (send_email env to_email subject body cc).text = "Error: Gmail credentials not configured." ∧
    (send_email env to_email subject body cc).smtpAttempted = false := by
  unfold send_email
  rcases h with h | h <;> simp [h]

/-- Witness for C4 at a concrete environment with the sender unset. -/
theorem send_email_missing_credentials_witness :
    (pyTruthy (none : Option String) = false ∨ pyTruthy (some "app-pw") = false) ∧
    ((send_email ⟨none, some "app-pw", none⟩ "you@example.com" "Hi" "Body" "").text
        = "Error: Gmail credentials not configured." ∧
      (send_email ⟨none, some "app-pw", none⟩ "you@example.com" "Hi" "Body" "").smtpAttempted
        = false) :=
  ⟨Or.inl rfl,
    send_email_missing_credentials ⟨none, some "app-pw", none⟩ "you@example.com" "Hi" "Body" ""
      (Or.inl rfl)⟩

/-- C5: every non-200 response status is converted inside the tool into
the fixed user-presentable text, for `get_weather` and for `fetch_joke`. -/
theorem non_200_reported_textually (city body setup punchline : String) (status : ℕ)
    (h : status ≠ 200) :
    get_weather (.ok status body) city = "Could not retrieve weather for " ++ city ++ "." ∧
    fetch_joke (.ok status setup punchline) = "Could not retrieve a joke at this time." := by
  unfold get_weather fetch_joke
  simp [h]

/-- Witness for C5 at status 404. -/
theorem non_200_reported_textually_witness :
    ((404 : ℕ) ≠ 200) ∧
    (get_weather (.ok 404 "cloudy") "Paris" = "Could not retrieve weather for " ++ "Paris" ++ "." ∧
      fetch_joke (.ok 404 "s" "p") = "Could not retrieve a joke at this time.") :=
  ⟨by decide, non_200_reported_textually "Paris" "cloudy" "s" "p" 404 (by decide)⟩

/-- C6: whenever `send_whatsapp` reaches the automation call, the number
it hands over is the input unchanged when it starts with `+`, and
otherwise `+91` prepended to the whitespace-stripped input. -/
theorem send_whatsapp_country_code_default (phone_number message : String)
    (sendExn : Option String) :
    (send_whatsapp ⟨none, sendExn⟩ phone_number message).phoneUsed
      = some (if pyStartswith phone_number "+" then phone_number
              else "+91" ++ pyStrip phone_number) := by
  cases sendExn <;> rfl

/-- C7: `play_video` runs the pywhatkit strategy first and reports the
video playing when it succeeds; on any exception from it the fallback
opens the YouTube search-results URL in the browser and returns its own
distinct text, and no exception propagates (the model is a total
function into an outcome). -/
theorem play_video_strategy_fallback (topic e : String) :
    play_video .ok topic =
      { text := "I've started playing " ++ topic ++ " on YouTube.", openedUrl := none } ∧
    play_video (.exn e) topic =
      { text := "I couldn't autoplay the specific video, but I've opened YouTube search results for "
          ++ topic ++ "."
        openedUrl := some ("https://www.youtube.com/results?search_query=" ++ topic) } ∧
    (play_video .ok topic).text ≠ (play_video (.exn e) topic).text := by
  refine ⟨rfl, rfl, ?_⟩
  intro h
  have hlen := congrArg String.length h
  simp only [play_video, String.length_append] at hlen
  have e1 : ("I've started playing ").length = 21 := rfl
  have e2 : (" on YouTube.").length = 12 := rfl
  have e3 : ("I couldn't autoplay the specific video, but I've opened YouTube search results for ").length = 83 := rfl
  have e4 : (".").length = 1 := rfl
  omega

/-- C8: whenever `send_email` actually executes `sendmail`, the envelope
recipient list is exactly the single `to_email`, while a non-empty
`cc_email` appears as the `Cc` header of the composed message. -/
theorem send_email_envelope_only_to (env : EmailEnv) (to_email subject body cc : String)
    (rs : List String) (h : (send_email env to_email subject body cc).sentTo = some rs) :
    rs = [to_email] ∧
    (cc.data.isEmpty = false → (send_email env to_email subject body cc).ccHeader = some cc) := by
  obtain ⟨gs, gp, se⟩ := env
  unfold send_email at h ⊢
  cases hb : (!pyTruthy gs || !pyTruthy gp) with
  | true => simp [hb] at h
  | false =>
    cases se with
    | some e => simp [hb] at h
    | none =>
      simp only [hb, Bool.false_eq_true, if_false] at h ⊢
      simp only [Option.some.injEq] at h
      refine ⟨h.symm, fun hcc => ?_⟩
      simp [hcc]

/-- Witness for C8 with a concrete successful send carrying a CC
address. -/
theorem send_email_envelope_only_to_witness :
    ((send_email ⟨some "me@gmail.com", some "app-pw", none⟩
        "you@example.com" "Hi" "Body" "cc@example.com").sentTo = some ["you@example.com"]) ∧
    (["you@example.com"] = ["you@example.com"]) ∧
    ((send_email ⟨some "me@gmail.com", some "app-pw", none⟩
        "you@example.com" "Hi" "Body" "cc@example.com").ccHeader = some "cc@example.com") :=
  ⟨by decide,
    (send_email_envelope_only_to ⟨some "me@gmail.com", some "app-pw", none⟩
      "you@example.com" "Hi" "Body" "cc@example.com" ["you@example.com"] (by decide)).1,
    (send_email_envelope_only_to ⟨some "me@gmail.com", some "app-pw", none⟩
      "you@example.com" "Hi" "Body" "cc@example.com" ["you@example.com"] (by decide)).2
      (by decide)⟩

/-- C10: `read_news` returns the no-stories text exactly when the lookup
yields an empty result list, and on a non-empty list its output is the
header line followed by one formatted entry per result item, joined with
newlines. -/
theorem read_news_format (topic : String) (results : List (List (String × String))) :
    (read_news (.ok results) topic
        = "I couldn't find any recent news stories regarding '" ++ topic ++ "'."
      ↔ results = []) ∧
    (results ≠ [] →
      read_news (.ok results) topic
        = ("Here is the latest news on " ++ topic ++ ":") ++ "\n"
            ++ pyJoin "\n" (results.map formatNewsItem)) := by
  constructor
  · constructor
    · intro h
      by_contra hne
      obtain ⟨r, rs, rfl⟩ := List.exists_cons_of_ne_nil hne
      have h' : (("Here is the latest news on " ++ topic ++ ":") ++ "\n"
          ++ pyJoin "\n" (formatNewsItem r :: rs.map formatNewsItem))
          = "I couldn't find any recent news stories regarding '" ++ topic ++ "'." := h
      have hd := congrArg String.data h'
      simp only [String.data_append, List.append_assoc] at hd
      simp only [List.cons_append, List.cons.injEq] at hd
      exact absurd hd.1 (by decide)
    · intro h
      subst h
      rfl
  · intro hne
    obtain ⟨r, rs, rfl⟩ := List.exists_cons_of_ne_nil hne
    rfl

/-- Witness for C10 at a concrete one-item result list. -/
theorem read_news_format_witness :
    (([[("title", "Lean 4 released")]] : List (List (String × String))) ≠ []) ∧
    read_news (.ok [[("title", "Lean 4 released")]]) "tech"
      = ("Here is the latest news on " ++ "tech" ++ ":") ++ "\n"
          ++ pyJoin "\n" (([[("title", "Lean 4 released")]] :
              List (List (String × String))).map formatNewsItem) :=
  ⟨by decide, (read_news_format "tech" [[("title", "Lean 4 released")]]).2 (by decide)⟩

/-- C1: the `import pywhatkit` statement in `send_whatsapp` sits before
and outside the try block, so an exception raised by the import escapes
the tool instead of being converted into a returned string (unlike
`play_video`, which imports inside its try block). -/
theorem send_whatsapp_import_exception_escapes :
    (send_whatsapp ⟨some "No module named pywhatkit", none⟩ "9876543210" "Hello").result
      = Except.error "No module named pywhatkit" := rfl

/-- C2 (counterexample): two `send_email` runs differing only in the SMTP
exception message return different texts, each containing that message
verbatim, and `calculate_sum` likewise interpolates the `ValueError`
message into its returned text. -/
theorem send_email_error_text_leaks_exception :
    ((send_email ⟨some "me@gmail.com", some "app-pw", some "535 authentication failed"⟩
        "you@example.com" "Hi" "Body" "").text
      = "Failed to send email: 535 authentication failed") ∧
    ((send_email ⟨some "me@gmail.com", some "app-pw", some "connection timed out"⟩
        "you@example.com" "Hi" "Body" "").text
      = "Failed to send email: connection timed out") ∧
    ((send_email ⟨some "me@gmail.com", some "app-pw", some "535 authentication failed"⟩
        "you@example.com" "Hi" "Body" "").text
      ≠ (send_email ⟨some "me@gmail.com", some "app-pw", some "connection timed out"⟩
        "you@example.com" "Hi" "Body" "").text) ∧
    calculate_sum "a,b" = "Error calculating sum: could not convert string to float: 'a'" := by
  exact ⟨by decide, by decide, by decide, by decide⟩

/-- C2 (amended): for `get_weather`, `search_web`, `fetch_joke`,
`read_news`, `play_video` and the caught path of `send_whatsapp` the
returned error text is a fixed message independent of the exception's
message; `send_email` and `calculate_sum` however interpolate the
exception's message into the text returned to the caller. -/
theorem error_text_independent_of_exception
    (city query topic phone_number msg e e' : String) :
    get_weather (.exn e) city = get_weather (.exn e') city ∧
    search_web (.exn e) query = search_web (.exn e') query ∧
    fetch_joke (.exn e) = fetch_joke (.exn e') ∧
    read_news (.exn e) topic = read_news (.exn e') topic ∧
    play_video (.exn e) topic = play_video (.exn e') topic ∧
    send_whatsapp ⟨none, some e⟩ phone_number msg
      = send_whatsapp ⟨none, some e'⟩ phone_number msg ∧
    (∀ sender pw to_email subject body cc : String,
      (send_email ⟨some ("x" ++ sender), some ("p" ++ pw), some e⟩
          to_email subject body cc).text
        = "Failed to send email: " ++ e) ∧
    calculate_sum "a,b" = "Error calculating sum: could not convert string to float: 'a'" :=
  ⟨rfl, rfl, rfl, rfl, rfl, rfl, fun _ _ _ _ _ _ => rfl, by decide⟩

end Friday
